import Mathlib

/-!
Shallow embedding of the GIF reshaping core of gif-tools, translated from
src/App.tsx: the frame reconstruction and masking pipeline processGifRobust
and the size-constrained export loop handleExport.

Modelling conventions:
- Pixels are RGBA quadruples of natural numbers; a canvas is a total
  function from integer coordinates to pixels.
- Canvas compositing (drawImage) follows the source-over rule restricted to
  binary alpha: GIF patches produced by the decoder carry alpha 0 or 255
  only, so an opaque source pixel overwrites and a transparent one keeps
  the destination.
- The external gif.js encoder and the Math.sqrt library routine are
  abstract parameters of the export loop.
- Rasterisation of the polygon clip is idealised: a target pixel is painted
  iff its centre lies inside the scaled polygon under the non-zero winding
  rule (the default canvas clip rule), and the scaled drawImage samples the
  source by nearest neighbour at the pixel centre.
-/

namespace GifTools

/-- One RGBA pixel. Channels are unconstrained naturals; the source only
ever stores byte values. -/
structure Pixel where
  r : ℕ
  g : ℕ
  b : ℕ
  a : ℕ
deriving DecidableEq

/-- The fully transparent pixel a fresh canvas is initialised to and that
clearRect writes. -/
def transparentPixel : Pixel := ⟨0, 0, 0, 0⟩

/-- CHROMA_KEY_COLOR_HEX from src/App.tsx: the reserved substitution
(chroma key) colour 0x00FF00. -/
def CHROMA_KEY_COLOR_HEX : ℕ := 0x00FF00

/-- The pixel written by filling with CHROMA_KEY_COLOR_STR, the same green
as CHROMA_KEY_COLOR_HEX, fully opaque. -/
def chromaKeyPixel : Pixel := ⟨0, 255, 0, 255⟩

/-- RGB value of a pixel packed as 0xRRGGBB, to relate chromaKeyPixel to
CHROMA_KEY_COLOR_HEX. -/
def pixelRGBHex (p : Pixel) : ℕ := p.r * 65536 + p.g * 256 + p.b

/-- A 2D canvas, as a total function from coordinates to pixels. -/
abbrev Canvas := ℕ → ℕ → Pixel

/-- The dims record of a decoded gifuct frame: the placement rectangle of
the patch within the full canvas. -/
structure Rect where
  width : ℕ
  height : ℕ
  top : ℕ
  left : ℕ
deriving DecidableEq

/-- A raw decoded frame as consumed by processGifRobust: the RGBA patch
buffer (indexed by local coordinates within dims), the placement
rectangle, the frame delay and the GIF disposal type (2 is
restore-to-background). -/
structure RawFrame where
  patch : ℕ → ℕ → Pixel
  dims : Rect
  delay : ℕ
  disposalType : ℕ

/-- Membership of a coordinate in a placement rectangle. -/
def inRectB (r : Rect) (x y : ℕ) : Bool :=
  decide (r.left ≤ x ∧ x < r.left + r.width ∧ r.top ≤ y ∧ y < r.top + r.height)

/-- Source-over compositing of one pixel, restricted to the binary alpha
values that occur in decoded GIF patches: a transparent source keeps the
destination, any other source overwrites it. -/
def overPixel (src dst : Pixel) : Pixel := if src.a = 0 then dst else src

/-- fullCtx.clearRect(dims.left, dims.top, dims.width, dims.height). -/
def clearRect (r : Rect) (c : Canvas) : Canvas := fun x y =>
  if inRectB r x y then transparentPixel else c x y

/-- fullCtx.drawImage(patchCanvas, dims.left, dims.top): composite the
patch of a frame onto the canvas at its placement offset. -/
def drawPatch (f : RawFrame) (c : Canvas) : Canvas := fun x y =>
  if inRectB f.dims x y then
    overPixel (f.patch (x - f.dims.left) (y - f.dims.top)) (c x y)
  else c x y

/-- One iteration of the reconstruction loop body of processGifRobust on
the full canvas: if the disposalType of the current frame is 2 the
placement rectangle of the current frame is cleared, then its patch is
drawn. -/
def compositeStep (c : Canvas) (f : RawFrame) : Canvas :=
  drawPatch f (if f.disposalType = 2 then clearRect f.dims c else c)

/-- The freshly created full canvas: all pixels transparent. -/
def blankCanvas : Canvas := fun _ _ => transparentPixel

/-- State of the full canvas after the first n raw frames have been
composited. canvasAfter frames (i+1) is the reconstructed bitmap emitted
for frame i. -/
def canvasAfter (frames : List RawFrame) (n : ℕ) : Canvas :=
  (frames.take n).foldl compositeStep blankCanvas

/-- A polygon vertex, in source-canvas coordinates. The source stores
floating point coordinates; they are modelled as rationals. -/
structure Pt where
  x : ℚ
  y : ℚ
deriving DecidableEq

/-- Cross product (b - a) x (p - a), the orientation of p relative to the
directed edge from a to b. -/
def crossZ (a b p : Pt) : ℚ :=
  (b.x - a.x) * (p.y - a.y) - (b.y - a.y) * (p.x - a.x)

/-- Winding contribution of the directed edge from a to b for the ray cast
from p: +1 for an upward crossing with p strictly left of the edge, -1 for
a downward crossing with p strictly right of it. -/
def edgeWind (p a b : Pt) : ℤ :=
  if a.y ≤ p.y ∧ p.y < b.y ∧ 0 < crossZ a b p then 1
  else if b.y ≤ p.y ∧ p.y < a.y ∧ crossZ a b p < 0 then -1
  else 0

/-- Edges of the path built by lineTo calls from the current vertex list,
with the closePath edge back to the first vertex. -/
def closedEdges (first : Pt) : List Pt → List (Pt × Pt)
  | [] => []
  | [a] => [(a, first)]
  | a :: b :: rest => (a, b) :: closedEdges first (b :: rest)

/-- Edges of the closed path traced by moveTo(points[0]),
lineTo(points[1..]), closePath() in processGifRobust; empty when the point
list is empty (the moveTo branch is skipped). -/
def polyEdges : List Pt → List (Pt × Pt)
  | [] => []
  | p0 :: rest => closedEdges p0 (p0 :: rest)

/-- Winding number of p with respect to the closed polygon path. -/
def winding (pts : List Pt) (p : Pt) : ℤ :=
  (polyEdges pts).foldl (fun acc e => acc + edgeWind p e.1 e.2) 0

/-- The non-zero winding rule used by canvas clip(): p is inside the clip
region iff its winding number is non-zero. -/
def insideB (pts : List Pt) (p : Pt) : Bool := winding pts p ≠ 0

/-- The vertex transform induced by exportCtx.scale(scaleX, scaleY) on the
path: each coordinate is multiplied by the corresponding scale factor. -/
def scalePt (sx sy : ℚ) (p : Pt) : Pt := ⟨p.x * sx, p.y * sy⟩

/-- Centre of the target pixel (i, j), the sampling point of the idealised
rasteriser. -/
def pixCenter (i j : ℕ) : Pt := ⟨(i : ℚ) + 1 / 2, (j : ℚ) + 1 / 2⟩

/-- Nearest-neighbour source index for target index i when a source of
extent orig is drawn scaled to extent target: the source pixel containing
the preimage of the centre of target pixel i. -/
def srcCoord (orig target i : ℕ) : ℕ := (2 * i + 1) * orig / (2 * target)

/-- The export canvas right after step A of processGifRobust: every pixel
filled with the chroma key colour. -/
def chromaFill : Canvas := fun _ _ => chromaKeyPixel

/-- A bitmap of fixed dimensions, as produced for each emitted frame. -/
structure Bitmap where
  width : ℕ
  height : ℕ
  pix : Canvas

/-- The polygon as traced on the export canvas: every vertex transformed by
exportCtx.scale(targetWidth / originalWidth, targetHeight / originalHeight). -/
def scaledPts (pts : List Pt) (origW origH tW tH : ℕ) : List Pt :=
  pts.map (scalePt ((tW : ℚ) / (origW : ℚ)) ((tH : ℚ) / (origH : ℚ)))

/-- Steps B and C of processGifRobust: establish the clip from the scaled
polygon path, then draw the full canvas scaled by
(targetWidth / originalWidth, targetHeight / originalHeight) through it,
source-over onto the destination. -/
def clippedScaledDraw (pts : List Pt) (origW origH tW tH : ℕ)
    (src dst : Canvas) : Canvas := fun i j =>
  if insideB (scaledPts pts origW origH tW tH) (pixCenter i j) then
    overPixel (src (srcCoord origW tW i) (srcCoord origH tH j)) (dst i j)
  else dst i j

/-- The masked, scaled output bitmap built on the export canvas for one
reconstructed frame: chroma key fill, then the clipped scaled draw of the
full canvas. -/
def maskFrame (pts : List Pt) (origW origH tW tH : ℕ) (full : Canvas) : Bitmap :=
  ⟨tW, tH, clippedScaledDraw pts origW origH tW tH full chromaFill⟩

/-- One frame handed to gif.addFrame: the export-canvas bitmap and the
delay passed alongside it. -/
structure OutFrame where
  bitmap : Bitmap
  delay : ℕ

/-- Delay attached to the emitted frame at index i: the sum of the delays
of this frame and the following skipped frames, guarded by the end of the
raw frame list, as computed by the inner j loop of processGifRobust. -/
def groupDelay (frames : List RawFrame) (frameSkip i : ℕ) : ℕ :=
  (List.range frameSkip).foldl
    (fun acc j =>
      match frames[i + j]? with
      | some fr => acc + fr.delay
      | none => acc) 0

/-- The frame loop of processGifRobust: every raw frame is composited onto
the full canvas in order; the frames at indices divisible by frameSkip are
masked, scaled and emitted with their group delay. -/
def processFrames (frames : List RawFrame) (pts : List Pt)
    (origW origH tW tH frameSkip : ℕ) : List OutFrame :=
  (List.range frames.length).filterMap fun i =>
    if i % frameSkip = 0 then
      some ⟨maskFrame pts origW origH tW tH (canvasAfter frames (i + 1)),
            groupDelay frames frameSkip i⟩
    else none

/-- ToolState from src/types.ts. -/
inductive ToolState where
  | IDLE
  | DRAGGING
  | PROCESSING
  | COMPLETED
deriving DecidableEq

/-- The encoded artifact returned by gif.js, observed through its byte
size only. -/
structure Blob where
  bytes : ℕ
deriving DecidableEq

/-- Parameters of one processGifRobust invocation made by the export loop:
target width, target height and encoder quality. -/
structure EncodeCall where
  w : ℕ
  h : ℕ
  quality : ℕ
deriving DecidableEq

/-- Observable outcome of handleExport: whether setProcessedUrl delivered a
blob, the final ToolState, whether setError was called, and the trace of
processGifRobust invocations in order. -/
structure ExportResult where
  processed : Option Blob
  status : ToolState
  errorSet : Bool
  calls : List EncodeCall
deriving DecidableEq

/-- MAX_ATTEMPTS from handleExport. -/
def MAX_ATTEMPTS : ℕ := 5

/-- blob.size / (1024 * 1024): the size of an attempt in megabytes. -/
def sizeMBOf (blob : Blob) : ℚ := (blob.bytes : ℚ) / (1024 * 1024)

/-- One encode attempt: the frames are reconstructed, masked and scaled at
the attempt target dimensions with frame skip 1 (the stride is the
constant currentSkip = 1 in handleExport) and handed to the abstract
gif.js renderer together with the target dimensions and quality. -/
def attemptBlob (render : ℕ → ℕ → ℕ → List OutFrame → Blob)
    (frames : List RawFrame) (pts : List Pt) (origW origH W H q : ℕ) : Blob :=
  render W H q (processFrames frames pts origW origH W H 1)

/-- The dimension scale factor computed after an over-budget attempt:
ratio = maxFileSize / sizeMB, safetyRatio = ratio * 0.9,
scaleFactor = Math.sqrt(safetyRatio); Math.sqrt is the abstract sqrtFn. -/
def scaleFactorOf (sqrtFn : ℚ → ℚ) (maxFileSize sizeMB : ℚ) : ℚ :=
  sqrtFn (maxFileSize / sizeMB * (9 / 10))

/-- currentW = Math.max(32, Math.floor(currentW * scaleFactor)), the
dimension update of the export loop. -/
def updateDim (scaleFactor : ℚ) (d : ℕ) : ℕ :=
  (max 32 (Int.floor ((d : ℚ) * scaleFactor))).toNat

/-- The quality set after attempt number n of the export loop: 15 after the
first pass, 20 after the second, 30 from the third on. -/
def qualityAfter (n : ℕ) : ℕ := if n = 1 then 15 else if n = 2 then 20 else 30

/-- The while loop of handleExport. fuel is MAX_ATTEMPTS minus the number
of attempts already made, so the loop guard attempt < MAX_ATTEMPTS is
fuel > 0; attempt counts completed attempts. When the guard fails the code
only calls setError, leaving processedUrl unset and the status at
PROCESSING. -/
def exportGo (render : ℕ → ℕ → ℕ → List OutFrame → Blob) (sqrtFn : ℚ → ℚ)
    (frames : List RawFrame) (pts : List Pt) (origW origH : ℕ)
    (limitFileSize : Bool) (maxFileSize : ℚ) :
    ℕ → ℕ → ℕ → ℕ → ℕ → ExportResult
  | 0, _, _, _, _ =>
    { processed := none, status := ToolState.PROCESSING, errorSet := true,
      calls := [] }
  | fuel + 1, currentW, currentH, currentQuality, attempt =>
    let blob := attemptBlob render frames pts origW origH currentW currentH currentQuality
    if limitFileSize = false ∨ sizeMBOf blob ≤ maxFileSize then
      { processed := some blob, status := ToolState.COMPLETED, errorSet := false,
        calls := [⟨currentW, currentH, currentQuality⟩] }
    else
      let scaleFactor := scaleFactorOf sqrtFn maxFileSize (sizeMBOf blob)
      let newW := updateDim scaleFactor currentW
      let newH := updateDim scaleFactor currentH
      let newQuality := qualityAfter (attempt + 1)
      if newW < 32 ∨ newH < 32 then
        { processed := some blob, status := ToolState.COMPLETED, errorSet := false,
          calls := [⟨currentW, currentH, currentQuality⟩] }
      else
        let cont := exportGo render sqrtFn frames pts origW origH limitFileSize
          maxFileSize fuel newW newH newQuality (attempt + 1)
        { processed := cont.processed, status := cont.status,
          errorSet := cont.errorSet,
          calls := ⟨currentW, currentH, currentQuality⟩ :: cont.calls }

/-- The body of handleExport after the empty-input guard, for a loaded GIF:
initial target dimensions are the source dimensions, initial quality 10,
attempt counter 0, at most MAX_ATTEMPTS passes. -/
def handleExport (render : ℕ → ℕ → ℕ → List OutFrame → Blob) (sqrtFn : ℚ → ℚ)
    (frames : List RawFrame) (pts : List Pt) (origW origH : ℕ)
    (limitFileSize : Bool) (maxFileSize : ℚ) : ExportResult :=
  exportGo render sqrtFn frames pts origW origH limitFileSize maxFileSize
    MAX_ATTEMPTS origW origH 10 0

/-! Concrete instances used by counterexamples and witnesses. -/

/-- An opaque red pixel. -/
def redPixel : Pixel := ⟨255, 0, 0, 255⟩

/-- An opaque blue pixel. -/
def bluePixel : Pixel := ⟨0, 0, 255, 255⟩

/-- A 2x1 animation, frame 0: a red 1x1 patch at the origin with
disposalType 2 (restore to background). -/
def exF0 : RawFrame := ⟨fun _ _ => redPixel, ⟨1, 1, 0, 0⟩, 100, 2⟩

/-- Frame 1 of the same animation: a blue 1x1 patch at (1, 0), disposal
none; it does not touch the rectangle of frame 0. -/
def exF1 : RawFrame := ⟨fun _ _ => bluePixel, ⟨1, 1, 0, 1⟩, 100, 0⟩

/-- The two-frame sequence refuting the lagged-disposal claim. -/
def exFramesC1 : List RawFrame := [exF0, exF1]

/-- A single frame whose patch is fully transparent, with disposalType 2,
used to exercise the eager disposal clearing. -/
def exFWitC1 : RawFrame := ⟨fun _ _ => transparentPixel, ⟨1, 1, 0, 0⟩, 50, 2⟩

/-- A square polygon covering the whole 2x2 source canvas; every pixel
centre lies strictly inside it. -/
def exPolySquare : List Pt := [⟨0, 0⟩, ⟨2, 0⟩, ⟨2, 2⟩, ⟨0, 2⟩]

/-- A single frame on a 2x2 canvas whose red patch covers only the pixel
(0, 0), leaving the rest of the full canvas transparent. -/
def exFrameC2 : RawFrame := ⟨fun _ _ => redPixel, ⟨1, 1, 0, 0⟩, 100, 0⟩

/-- The one-frame sequence with a partially covered canvas. -/
def exFramesC2 : List RawFrame := [exFrameC2]

/-- A degenerate polygon of two points. -/
def exPoly2 : List Pt := [⟨0, 0⟩, ⟨2, 2⟩]

/-- An abstract gif.js renderer whose artifact is always 18 MiB
(18874368 bytes), over every budget used in the concrete runs. -/
def constRender18 : ℕ → ℕ → ℕ → List OutFrame → Blob := fun _ _ _ _ => ⟨18874368⟩

/-- A stand-in for Math.sqrt in the concrete runs. The only argument the
runs ever evaluate it at is 1/4 (since every attempt measures 18 MB
against the 5 MB budget, safetyRatio is 5/18 * 9/10 = 1/4), where 1/2 is
the exact square root. -/
def sqrtHalf : ℚ → ℚ := fun _ => 1 / 2

/-! Helper lemmas about the export loop. -/

/-- Unfolding of exportGo when the attempt budget is exhausted: only the
error message is set; no blob is delivered and the status stays
PROCESSING. -/
theorem exportGo_zero (render : ℕ → ℕ → ℕ → List OutFrame → Blob) (sqrtFn : ℚ → ℚ)
    (frames : List RawFrame) (pts : List Pt) (origW origH : ℕ)
    (limitFileSize : Bool) (maxFileSize : ℚ) (W H q a : ℕ) :
    exportGo render sqrtFn frames pts origW origH limitFileSize maxFileSize 0 W H q a =
      { processed := none, status := ToolState.PROCESSING, errorSet := true,
        calls := [] } := rfl

/-- Unfolding of one iteration of the export loop. -/
theorem exportGo_succ (render : ℕ → ℕ → ℕ → List OutFrame → Blob) (sqrtFn : ℚ → ℚ)
    (frames : List RawFrame) (pts : List Pt) (origW origH : ℕ)
    (limitFileSize : Bool) (maxFileSize : ℚ) (fuel W H q a : ℕ) :
    exportGo render sqrtFn frames pts origW origH limitFileSize maxFileSize
        (fuel + 1) W H q a =
      (if limitFileSize = false ∨
          sizeMBOf (attemptBlob render frames pts origW origH W H q) ≤ maxFileSize then
        { processed := some (attemptBlob render frames pts origW origH W H q),
          status := ToolState.COMPLETED, errorSet := false, calls := [⟨W, H, q⟩] }
      else
        if updateDim (scaleFactorOf sqrtFn maxFileSize
              (sizeMBOf (attemptBlob render frames pts origW origH W H q))) W < 32 ∨
            updateDim (scaleFactorOf sqrtFn maxFileSize
              (sizeMBOf (attemptBlob render frames pts origW origH W H q))) H < 32 then
          { processed := some (attemptBlob render frames pts origW origH W H q),
            status := ToolState.COMPLETED, errorSet := false, calls := [⟨W, H, q⟩] }
        else
          { processed := (exportGo render sqrtFn frames pts origW origH limitFileSize
              maxFileSize fuel
              (updateDim (scaleFactorOf sqrtFn maxFileSize
                (sizeMBOf (attemptBlob render frames pts origW origH W H q))) W)
              (updateDim (scaleFactorOf sqrtFn maxFileSize
                (sizeMBOf (attemptBlob render frames pts origW origH W H q))) H)
              (qualityAfter (a + 1)) (a + 1)).processed,
            status := (exportGo render sqrtFn frames pts origW origH limitFileSize
              maxFileSize fuel
              (updateDim (scaleFactorOf sqrtFn maxFileSize
                (sizeMBOf (attemptBlob render frames pts origW origH W H q))) W)
              (updateDim (scaleFactorOf sqrtFn maxFileSize
                (sizeMBOf (attemptBlob render frames pts origW origH W H q))) H)
              (qualityAfter (a + 1)) (a + 1)).status,
            errorSet := (exportGo render sqrtFn frames pts origW origH limitFileSize
              maxFileSize fuel
              (updateDim (scaleFactorOf sqrtFn maxFileSize
                (sizeMBOf (attemptBlob render frames pts origW origH W H q))) W)
              (updateDim (scaleFactorOf sqrtFn maxFileSize
                (sizeMBOf (attemptBlob render frames pts origW origH W H q))) H)
              (qualityAfter (a + 1)) (a + 1)).errorSet,
            calls := (⟨W, H, q⟩ : EncodeCall) ::
              (exportGo render sqrtFn frames pts origW origH limitFileSize
                maxFileSize fuel
                (updateDim (scaleFactorOf sqrtFn maxFileSize
                  (sizeMBOf (attemptBlob render frames pts origW origH W H q))) W)
                (updateDim (scaleFactorOf sqrtFn maxFileSize
                  (sizeMBOf (attemptBlob render frames pts origW origH W H q))) H)
                (qualityAfter (a + 1)) (a + 1)).calls }) := rfl

/-- The dimension update can never produce a value below 32: the Math.max
clamp runs before any comparison against 32 does. -/
theorem updateDim_ge (scaleFactor : ℚ) (d : ℕ) : 32 ≤ updateDim scaleFactor d := by
  unfold updateDim
  omega

/-- The attempt artifact of the constant renderer, at any parameters. -/
theorem attemptBlob_const18 (frames : List RawFrame) (pts : List Pt)
    (origW origH W H q : ℕ) :
    attemptBlob constRender18 frames pts origW origH W H q = ⟨18874368⟩ := rfl

/-- 18874368 bytes is exactly 18 MB. -/
theorem sizeMB_const18 : sizeMBOf (Blob.mk 18874368) = 18 := by
  norm_num [sizeMBOf]

/-- The scale factor computed from an 18 MB artifact against a 5 MB
budget under the concrete square root. -/
theorem scaleFactor_const18 : scaleFactorOf sqrtHalf 5 18 = 1 / 2 := by
  norm_num [scaleFactorOf, sqrtHalf]

theorem upd300 : updateDim (1 / 2) 300 = 150 := by
  norm_num [updateDim]
  rfl

theorem upd150 : updateDim (1 / 2) 150 = 75 := by
  norm_num [updateDim]
  rfl

theorem upd75 : updateDim (1 / 2) 75 = 37 := by
  norm_num [updateDim]
  rfl

theorem upd37 : updateDim (1 / 2) 37 = 32 := by
  norm_num [updateDim]
  rfl

theorem upd32 : updateDim (1 / 2) 32 = 32 := by
  norm_num [updateDim]
  rfl

theorem upd60 : updateDim (1 / 2) 60 = 32 := by
  norm_num [updateDim]
  rfl

/-- Pass 5 of both concrete runs: 32x32 at quality 30, over budget, fuel
exhausted afterwards. -/
theorem runC1 (frames : List RawFrame) (pts : List Pt) (origW origH : ℕ) :
    exportGo constRender18 sqrtHalf frames pts origW origH true 5 1 32 32 30 4 =
      { processed := none, status := ToolState.PROCESSING, errorSet := true,
        calls := [⟨32, 32, 30⟩] } := by
  rw [show (1 : ℕ) = 0 + 1 from rfl, exportGo_succ]
  norm_num [attemptBlob_const18, sizeMB_const18, scaleFactor_const18, upd32,
    exportGo_zero, qualityAfter]

theorem runC2 (frames : List RawFrame) (pts : List Pt) (origW origH : ℕ) :
    exportGo constRender18 sqrtHalf frames pts origW origH true 5 2 37 37 30 3 =
      { processed := none, status := ToolState.PROCESSING, errorSet := true,
        calls := [⟨37, 37, 30⟩, ⟨32, 32, 30⟩] } := by
  rw [show (2 : ℕ) = 1 + 1 from rfl, exportGo_succ]
  norm_num [attemptBlob_const18, sizeMB_const18, scaleFactor_const18, upd37,
    runC1, qualityAfter]

theorem runC3 (frames : List RawFrame) (pts : List Pt) (origW origH : ℕ) :
    exportGo constRender18 sqrtHalf frames pts origW origH true 5 3 75 75 20 2 =
      { processed := none, status := ToolState.PROCESSING, errorSet := true,
        calls := [⟨75, 75, 20⟩, ⟨37, 37, 30⟩, ⟨32, 32, 30⟩] } := by
  rw [show (3 : ℕ) = 2 + 1 from rfl, exportGo_succ]
  norm_num [attemptBlob_const18, sizeMB_const18, scaleFactor_const18, upd75,
    runC2, qualityAfter]

theorem runC4 (frames : List RawFrame) (pts : List Pt) (origW origH : ℕ) :
    exportGo constRender18 sqrtHalf frames pts origW origH true 5 4 150 150 15 1 =
      { processed := none, status := ToolState.PROCESSING, errorSet := true,
        calls := [⟨150, 150, 15⟩, ⟨75, 75, 20⟩, ⟨37, 37, 30⟩, ⟨32, 32, 30⟩] } := by
  rw [show (4 : ℕ) = 3 + 1 from rfl, exportGo_succ]
  norm_num [attemptBlob_const18, sizeMB_const18, scaleFactor_const18, upd150,
    runC3, qualityAfter]

/-- The full 300x300 run against a 5 MB budget with a constant 18 MB
renderer: five attempts, then the loop gives up having set only the error
message. -/
theorem run300_eval (frames : List RawFrame) (pts : List Pt) :
    handleExport constRender18 sqrtHalf frames pts 300 300 true 5 =
      { processed := none, status := ToolState.PROCESSING, errorSet := true,
        calls := [⟨300, 300, 10⟩, ⟨150, 150, 15⟩, ⟨75, 75, 20⟩, ⟨37, 37, 30⟩,
          ⟨32, 32, 30⟩] } := by
  rw [handleExport, show MAX_ATTEMPTS = 4 + 1 from rfl, exportGo_succ]
  norm_num [attemptBlob_const18, sizeMB_const18, scaleFactor_const18, upd300,
    runC4, qualityAfter]

theorem runD2 (frames : List RawFrame) (pts : List Pt) (origW origH : ℕ) :
    exportGo constRender18 sqrtHalf frames pts origW origH true 5 2 32 32 30 3 =
      { processed := none, status := ToolState.PROCESSING, errorSet := true,
        calls := [⟨32, 32, 30⟩, ⟨32, 32, 30⟩] } := by
  rw [show (2 : ℕ) = 1 + 1 from rfl, exportGo_succ]
  norm_num [attemptBlob_const18, sizeMB_const18, scaleFactor_const18, upd32,
    runC1, qualityAfter]

theorem runD3 (frames : List RawFrame) (pts : List Pt) (origW origH : ℕ) :
    exportGo constRender18 sqrtHalf frames pts origW origH true 5 3 32 32 20 2 =
      { processed := none, status := ToolState.PROCESSING, errorSet := true,
        calls := [⟨32, 32, 20⟩, ⟨32, 32, 30⟩, ⟨32, 32, 30⟩] } := by
  rw [show (3 : ℕ) = 2 + 1 from rfl, exportGo_succ]
  norm_num [attemptBlob_const18, sizeMB_const18, scaleFactor_const18, upd32,
    runD2, qualityAfter]

theorem runD4 (frames : List RawFrame) (pts : List Pt) (origW origH : ℕ) :
    exportGo constRender18 sqrtHalf frames pts origW origH true 5 4 32 32 15 1 =
      { processed := none, status := ToolState.PROCESSING, errorSet := true,
        calls := [⟨32, 32, 15⟩, ⟨32, 32, 20⟩, ⟨32, 32, 30⟩, ⟨32, 32, 30⟩] } := by
  rw [show (4 : ℕ) = 3 + 1 from rfl, exportGo_succ]
  norm_num [attemptBlob_const18, sizeMB_const18, scaleFactor_const18, upd32,
    runD3, qualityAfter]

/-- The full 60x60 run against a 5 MB budget with a constant 18 MB
renderer: the first update floors 60 * (1/2) to 30, below the 32 floor,
yet the loop clamps to 32 and runs four further attempts before giving up
with no delivered blob. -/
theorem run60_eval (frames : List RawFrame) (pts : List Pt) :
    handleExport constRender18 sqrtHalf frames pts 60 60 true 5 =
      { processed := none, status := ToolState.PROCESSING, errorSet := true,
        calls := [⟨60, 60, 10⟩, ⟨32, 32, 15⟩, ⟨32, 32, 20⟩, ⟨32, 32, 30⟩,
          ⟨32, 32, 30⟩] } := by
  rw [handleExport, show MAX_ATTEMPTS = 4 + 1 from rfl, exportGo_succ]
  norm_num [attemptBlob_const18, sizeMB_const18, scaleFactor_const18, upd60,
    runD4, qualityAfter]

/-- The trace of the export loop never exceeds its fuel. -/
theorem exportGo_calls_length (render : ℕ → ℕ → ℕ → List OutFrame → Blob)
    (sqrtFn : ℚ → ℚ) (frames : List RawFrame) (pts : List Pt) (origW origH : ℕ)
    (limitB : Bool) (maxMB : ℚ) :
    ∀ fuel W H q a,
      (exportGo render sqrtFn frames pts origW origH limitB maxMB
        fuel W H q a).calls.length ≤ fuel := by
  intro fuel
  induction fuel with
  | zero =>
    intro W H q a
    rw [exportGo_zero]
    simp
  | succ m ih =>
    intro W H q a
    rw [exportGo_succ]
    split_ifs with h1 h2
    · simp
    · simp
    · simp only [List.length_cons]
      exact Nat.succ_le_succ (ih _ _ _ _)

/-- The first recorded call of a loop with fuel remaining carries the
entry parameters. -/
theorem exportGo_calls_zero (render : ℕ → ℕ → ℕ → List OutFrame → Blob)
    (sqrtFn : ℚ → ℚ) (frames : List RawFrame) (pts : List Pt) (origW origH : ℕ)
    (limitB : Bool) (maxMB : ℚ) :
    ∀ fuel W H q a c,
      (exportGo render sqrtFn frames pts origW origH limitB maxMB
        fuel W H q a).calls[0]? = some c → c = ⟨W, H, q⟩ := by
  intro fuel W H q a c hc
  cases fuel with
  | zero =>
    rw [exportGo_zero] at hc
    simp at hc
  | succ m =>
    rw [exportGo_succ] at hc
    split_ifs at hc <;> simp at hc <;> exact hc.symm

/-- The quality of the n-th encode call is determined by the entry quality
and the attempt counter alone. -/
theorem exportGo_calls_quality (render : ℕ → ℕ → ℕ → List OutFrame → Blob)
    (sqrtFn : ℚ → ℚ) (frames : List RawFrame) (pts : List Pt) (origW origH : ℕ)
    (limitB : Bool) (maxMB : ℚ) :
    ∀ fuel W H q a n c,
      (exportGo render sqrtFn frames pts origW origH limitB maxMB
        fuel W H q a).calls[n]? = some c →
      c.quality = if n = 0 then q else qualityAfter (a + n) := by
  intro fuel
  induction fuel with
  | zero =>
    intro W H q a n c hc
    rw [exportGo_zero] at hc
    simp at hc
  | succ m ih =>
    intro W H q a n c hc
    rw [exportGo_succ] at hc
    split_ifs at hc with h1 h2
    · cases n with
      | zero =>
        simp at hc
        simp [← hc]
      | succ k =>
        simp at hc
    · cases n with
      | zero =>
        simp at hc
        simp [← hc]
      | succ k =>
        simp at hc
    · cases n with
      | zero =>
        simp at hc
        simp [← hc]
      | succ k =>
        simp only [List.getElem?_cons_succ] at hc
        have hk := ih _ _ _ _ k c hc
        rcases Nat.eq_zero_or_pos k with rfl | hkpos
        · simpa using hk
        · rw [if_neg hkpos.ne'] at hk
          rw [if_neg (Nat.succ_ne_zero k), show a + (k + 1) = a + 1 + k by omega]
          exact hk

/-- Whenever one encode call is followed by another, the earlier one was
over budget and the dimensions of the later one are obtained by the
scale-and-clamp update from the earlier one. -/
theorem exportGo_calls_consecutive (render : ℕ → ℕ → ℕ → List OutFrame → Blob)
    (sqrtFn : ℚ → ℚ) (frames : List RawFrame) (pts : List Pt) (origW origH : ℕ)
    (limitB : Bool) (maxMB : ℚ) :
    ∀ fuel W H q a n c c2,
      (exportGo render sqrtFn frames pts origW origH limitB maxMB
        fuel W H q a).calls[n]? = some c →
      (exportGo render sqrtFn frames pts origW origH limitB maxMB
        fuel W H q a).calls[n + 1]? = some c2 →
      ¬ sizeMBOf (attemptBlob render frames pts origW origH c.w c.h c.quality) ≤ maxMB ∧
      c2.w = updateDim (scaleFactorOf sqrtFn maxMB
        (sizeMBOf (attemptBlob render frames pts origW origH c.w c.h c.quality))) c.w ∧
      c2.h = updateDim (scaleFactorOf sqrtFn maxMB
        (sizeMBOf (attemptBlob render frames pts origW origH c.w c.h c.quality))) c.h := by
  intro fuel
  induction fuel with
  | zero =>
    intro W H q a n c c2 hc hc2
    rw [exportGo_zero] at hc
    simp at hc
  | succ m ih =>
    intro W H q a n c c2 hc hc2
    rw [exportGo_succ] at hc hc2
    split_ifs at hc hc2 with h1 h2
    · cases n <;> simp at hc2
    · cases n <;> simp at hc2
    · cases n with
      | zero =>
        simp only [List.getElem?_cons_zero, Option.some.injEq] at hc
        simp only [List.getElem?_cons_succ] at hc2
        have hc2h := exportGo_calls_zero render sqrtFn frames pts origW origH
          limitB maxMB m _ _ _ _ c2 hc2
        rw [← hc, hc2h]
        rw [not_or] at h1
        exact ⟨h1.2, rfl, rfl⟩
      | succ k =>
        simp only [List.getElem?_cons_succ] at hc hc2
        exact ih _ _ _ _ k c c2 hc hc2

/-- C9: the size-driven retry loop of handleExport performs at most
MAX_ATTEMPTS = 5 encode attempts for any renderer, square root, input and
budget, so it always terminates. -/
theorem C9_attempt_bound (render : ℕ → ℕ → ℕ → List OutFrame → Blob)
    (sqrtFn : ℚ → ℚ) (frames : List RawFrame) (pts : List Pt) (origW origH : ℕ)
    (limitB : Bool) (maxMB : ℚ) :
    (handleExport render sqrtFn frames pts origW origH limitB maxMB).calls.length ≤ 5 :=
  exportGo_calls_length render sqrtFn frames pts origW origH limitB maxMB
    MAX_ATTEMPTS origW origH 10 0

/-- C3: concrete run in which every attempt exceeds the budget. The loop
exhausts its five attempts and then only sets the warning message: the
result delivers no blob (processed is none) and the status remains
PROCESSING, contradicting the claim that the last produced blob is still
returned to the caller. -/
theorem C3_gave_up_no_output :
    handleExport constRender18 sqrtHalf exFramesC2 exPolySquare 300 300 true 5 =
      { processed := none, status := ToolState.PROCESSING, errorSet := true,
        calls := [⟨300, 300, 10⟩, ⟨150, 150, 15⟩, ⟨75, 75, 20⟩, ⟨37, 37, 30⟩,
          ⟨32, 32, 30⟩] } :=
  run300_eval exFramesC2 exPolySquare

/-- C4: the below-32 safety break of the loop is dead code. The dimension
update clamps to 32 before the break condition is tested, so the updated
dimensions are always at least 32; in the concrete 60x60 run the update
would floor 60 * (1/2) = 30 below the floor, yet the loop performs four
further encode attempts at the clamped 32x32 instead of accepting the
just-produced blob, and delivers nothing. -/
theorem C4_floor_break_dead :
    (∀ scaleFactor : ℚ, ∀ d : ℕ, 32 ≤ updateDim scaleFactor d) ∧
    Int.floor ((60 : ℚ) * (1 / 2)) < 32 ∧
    handleExport constRender18 sqrtHalf exFramesC2 exPolySquare 60 60 true 5 =
      { processed := none, status := ToolState.PROCESSING, errorSet := true,
        calls := [⟨60, 60, 10⟩, ⟨32, 32, 15⟩, ⟨32, 32, 20⟩, ⟨32, 32, 30⟩,
          ⟨32, 32, 30⟩] } :=
  ⟨updateDim_ge, by norm_num, run60_eval exFramesC2 exPolySquare⟩

/-- C5: whenever an encode attempt is followed by another one, the earlier
attempt was over budget and both dimensions of the later attempt are
max(32, floor(old * scaleFactor)) of the earlier ones, where scaleFactor =
sqrt(0.9 * (budget / actualSizeMB)) of the earlier artifact (scaleFactorOf
and updateDim spell out these formulas), applied identically to width and
height. -/
theorem C5_dim_update (render : ℕ → ℕ → ℕ → List OutFrame → Blob)
    (sqrtFn : ℚ → ℚ) (frames : List RawFrame) (pts : List Pt) (origW origH : ℕ)
    (limitB : Bool) (maxMB : ℚ) (n : ℕ) (c c2 : EncodeCall)
    (hc : (handleExport render sqrtFn frames pts origW origH limitB maxMB).calls[n]? =
      some c)
    (hc2 : (handleExport render sqrtFn frames pts origW origH limitB maxMB).calls[n + 1]? =
      some c2) :
    ¬ sizeMBOf (attemptBlob render frames pts origW origH c.w c.h c.quality) ≤ maxMB ∧
    c2.w = updateDim (scaleFactorOf sqrtFn maxMB
      (sizeMBOf (attemptBlob render frames pts origW origH c.w c.h c.quality))) c.w ∧
    c2.h = updateDim (scaleFactorOf sqrtFn maxMB
      (sizeMBOf (attemptBlob render frames pts origW origH c.w c.h c.quality))) c.h :=
  exportGo_calls_consecutive render sqrtFn frames pts origW origH limitB maxMB
    MAX_ATTEMPTS origW origH 10 0 n c c2 hc hc2

/-- Witness for C5 on the concrete 300x300 run: attempt 1 used 300x300 and
attempt 2 used 150x150 = updateDim of 300 under the computed scale
factor. -/
theorem C5_dim_update_witness :
    ¬ sizeMBOf (attemptBlob constRender18 exFramesC2 exPolySquare 300 300
        (EncodeCall.mk 300 300 10).w (EncodeCall.mk 300 300 10).h
        (EncodeCall.mk 300 300 10).quality) ≤ 5 ∧
    (EncodeCall.mk 150 150 15).w = updateDim (scaleFactorOf sqrtHalf 5
      (sizeMBOf (attemptBlob constRender18 exFramesC2 exPolySquare 300 300
        (EncodeCall.mk 300 300 10).w (EncodeCall.mk 300 300 10).h
        (EncodeCall.mk 300 300 10).quality))) (EncodeCall.mk 300 300 10).w ∧
    (EncodeCall.mk 150 150 15).h = updateDim (scaleFactorOf sqrtHalf 5
      (sizeMBOf (attemptBlob constRender18 exFramesC2 exPolySquare 300 300
        (EncodeCall.mk 300 300 10).w (EncodeCall.mk 300 300 10).h
        (EncodeCall.mk 300 300 10).quality))) (EncodeCall.mk 300 300 10).h :=
  C5_dim_update constRender18 sqrtHalf exFramesC2 exPolySquare 300 300 true 5
    0 ⟨300, 300, 10⟩ ⟨150, 150, 15⟩
    (by rw [run300_eval]; rfl) (by rw [run300_eval]; rfl)

/-- C8: the quality of every encode call of handleExport is a fixed
function of the call index alone, for every renderer and input: the first
call uses the initial 10, the second 15, the third 20, and every later
call 30. The quantification over render makes the independence from the
measured sizes explicit. -/
theorem C8_quality_schedule (render : ℕ → ℕ → ℕ → List OutFrame → Blob)
    (sqrtFn : ℚ → ℚ) (frames : List RawFrame) (pts : List Pt) (origW origH : ℕ)
    (limitB : Bool) (maxMB : ℚ) (n : ℕ) (c : EncodeCall)
    (hc : (handleExport render sqrtFn frames pts origW origH limitB maxMB).calls[n]? =
      some c) :
    c.quality = if n = 0 then 10 else if n = 1 then 15 else if n = 2 then 20 else 30 := by
  have h := exportGo_calls_quality render sqrtFn frames pts origW origH limitB maxMB
    MAX_ATTEMPTS origW origH 10 0 n c hc
  rw [h]
  rcases n with _ | n
  · rfl
  · simp [qualityAfter]

/-- Witness for C8 on the concrete 300x300 run: the second call (index 1)
has quality 15. -/
theorem C8_quality_schedule_witness :
    (EncodeCall.mk 150 150 15).quality =
      if 1 = 0 then 10 else if 1 = 1 then 15 else if 1 = 2 then 20 else 30 :=
  C8_quality_schedule constRender18 sqrtHalf exFramesC2 exPolySquare 300 300 true 5
    1 ⟨150, 150, 15⟩ (by rw [run300_eval]; rfl)

/-! Helper lemmas about reconstruction, the polygon and the frame loop. -/

/-- Unfolding of the reconstruction state by one frame. -/
theorem canvasAfter_succ (frames : List RawFrame) (i : ℕ) (f : RawFrame)
    (hf : frames[i]? = some f) :
    canvasAfter frames (i + 1) = compositeStep (canvasAfter frames i) f := by
  unfold canvasAfter
  rw [List.take_succ, hf]
  simp

theorem crossZ_rev (a b p : Pt) : crossZ b a p = - crossZ a b p := by
  unfold crossZ
  ring

/-- A collapsed edge contributes nothing to the winding number. -/
theorem edgeWind_self (p a : Pt) : edgeWind p a a = 0 := by
  unfold edgeWind
  split_ifs with h1 h2
  · exact absurd h1.2.1 (not_lt.mpr h1.1)
  · exact absurd h2.2.1 (not_lt.mpr h2.1)
  · rfl

/-- Traversing an edge backwards negates its winding contribution. -/
theorem edgeWind_rev (p a b : Pt) : edgeWind p b a = - edgeWind p a b := by
  unfold edgeWind
  rw [crossZ_rev a b p]
  simp only [neg_pos, neg_lt_zero]
  split_ifs with h1 h2 h3
  · exact absurd h2.1 (not_le.mpr h1.2.1)
  · norm_num
  · norm_num
  · norm_num

/-- A path of fewer than three vertices has empty interior under the
non-zero winding rule: its edge list is empty, a single collapsed edge, or
one segment traversed both ways. -/
theorem insideB_degenerate (pts : List Pt) (h : pts.length < 3) (p : Pt) :
    insideB pts p = false := by
  match pts with
  | [] => rfl
  | [a] =>
    simp [insideB, winding, polyEdges, closedEdges, edgeWind_self]
  | [a, b] =>
    have h2 : edgeWind p b a = - edgeWind p a b := edgeWind_rev p a b
    simp [insideB, winding, polyEdges, closedEdges, h2]
  | a :: b :: c :: rest =>
    simp at h
    omega

/-- filterMap with an always-some function keeping every element is map. -/
theorem filterMap_mod_one {β : Type} (g : ℕ → β) (l : List ℕ) :
    l.filterMap (fun i => if i % 1 = 0 then some (g i) else none) = l.map g := by
  have hfun : (fun i : ℕ => if i % 1 = 0 then some (g i) else none) =
      fun i => some (g i) := by
    funext i
    simp [Nat.mod_one]
  rw [hfun]
  induction l with
  | nil => rfl
  | cons x xs ih => simp [List.filterMap_cons, ih]

/-- At frame skip 1 the frame loop emits one masked frame per raw frame. -/
theorem processFrames_one (frames : List RawFrame) (pts : List Pt)
    (oW oH tW tH : ℕ) :
    processFrames frames pts oW oH tW tH 1 =
      (List.range frames.length).map (fun i =>
        ⟨maskFrame pts oW oH tW tH (canvasAfter frames (i + 1)),
         groupDelay frames 1 i⟩) := by
  unfold processFrames
  exact filterMap_mod_one _ _

/-- At frame skip 1 the group delay of frame i is exactly the delay of
frame i. -/
theorem groupDelay_one (frames : List RawFrame) (i : ℕ) (f : RawFrame)
    (hf : frames[i]? = some f) : groupDelay frames 1 i = f.delay := by
  unfold groupDelay
  have h1 : List.range 1 = [0] := rfl
  rw [h1]
  simp only [List.foldl_cons, List.foldl_nil, Nat.add_zero, hf]
  simp

/-- The i-th emitted frame at skip 1: the masked reconstruction state
after frame i, carrying the original delay of frame i. -/
theorem processFrames_getElem (frames : List RawFrame) (pts : List Pt)
    (oW oH tW tH i : ℕ) (f : RawFrame) (hf : frames[i]? = some f) :
    (processFrames frames pts oW oH tW tH 1)[i]? =
      some ⟨maskFrame pts oW oH tW tH (canvasAfter frames (i + 1)), f.delay⟩ := by
  have hi : i < frames.length := by
    by_contra hlt
    rw [List.getElem?_eq_none (le_of_not_lt hlt)] at hf
    cases hf
  rw [processFrames_one, List.getElem?_map, List.getElem?_range hi]
  simp [groupDelay_one frames i f hf]

/-! Claim theorems about reconstruction and masking. -/

/-- C1 counterexample: disposal is not applied one step lagged. Frame 0
has disposalType 2 (RESTORE_BACKGROUND) and covers pixel (0, 0); frame 1
does not touch that pixel. The claim requires the rectangle of frame 0 to
be transparent in the reconstruction state of frame 1, but the emitted
state still shows the red pixel of frame 0 there. -/
theorem C1_counterexample :
    exF0.disposalType = 2 ∧
    inRectB exF0.dims 0 0 = true ∧
    inRectB exF1.dims 0 0 = false ∧
    canvasAfter exFramesC1 2 0 0 = redPixel ∧
    redPixel ≠ transparentPixel := by
  refine ⟨rfl, rfl, rfl, ?_, by decide⟩
  decide

/-- C1 amended: disposal is applied eagerly, keyed to the current frame:
when a frame carries disposalType 2, its own placement rectangle is
cleared immediately before its own patch is drawn, so every pixel of that
rectangle at which the patch is transparent is transparent in the state
emitted for that same frame. -/
theorem C1_amended (frames : List RawFrame) (i : ℕ) (f : RawFrame)
    (hf : frames[i]? = some f) (hd : f.disposalType = 2) (x y : ℕ)
    (hxy : inRectB f.dims x y = true)
    (ha : (f.patch (x - f.dims.left) (y - f.dims.top)).a = 0) :
    canvasAfter frames (i + 1) x y = transparentPixel := by
  rw [canvasAfter_succ frames i f hf]
  simp [compositeStep, drawPatch, clearRect, overPixel, hd, hxy, ha]

/-- Witness for the amended C1 at a one-frame sequence with a fully
transparent patch and disposalType 2. -/
theorem C1_amended_witness :
    [exFWitC1][0]? = some exFWitC1 ∧ exFWitC1.disposalType = 2 ∧
    inRectB exFWitC1.dims 0 0 = true ∧ (exFWitC1.patch 0 0).a = 0 ∧
    canvasAfter [exFWitC1] 1 0 0 = transparentPixel :=
  ⟨rfl, rfl, rfl, rfl, C1_amended [exFWitC1] 0 exFWitC1 rfl rfl 0 0 rfl rfl⟩

/-- Pixel centre (1.5, 1.5) lies inside the scaled square polygon. -/
theorem exInside11 :
    insideB (scaledPts exPolySquare 2 2 2 2) (pixCenter 1 1) = true := by
  norm_num [insideB, winding, polyEdges, closedEdges, edgeWind, crossZ,
    exPolySquare, scaledPts, scalePt, pixCenter]

/-- Pixel centre (0.5, 0.5) lies inside the scaled square polygon. -/
theorem exInside00 :
    insideB (scaledPts exPolySquare 2 2 2 2) (pixCenter 0 0) = true := by
  norm_num [insideB, winding, polyEdges, closedEdges, edgeWind, crossZ,
    exPolySquare, scaledPts, scalePt, pixCenter]

/-- Pixel centre (5.5, 5.5) lies outside the scaled square polygon. -/
theorem exOutside55 :
    insideB (scaledPts exPolySquare 2 2 2 2) (pixCenter 5 5) = false := by
  norm_num [insideB, winding, polyEdges, closedEdges, edgeWind, crossZ,
    exPolySquare, scaledPts, scalePt, pixCenter]

/-- C2 counterexample: a pixel strictly inside the polygon whose
corresponding full-canvas pixel is transparent is not sourced from the
full canvas: the mask output holds the substitution colour there, not the
transparent source value. -/
theorem C2_counterexample :
    insideB (scaledPts exPolySquare 2 2 2 2) (pixCenter 1 1) = true ∧
    canvasAfter exFramesC2 1 1 1 = transparentPixel ∧
    (maskFrame exPolySquare 2 2 2 2 (canvasAfter exFramesC2 1)).pix 1 1 =
      chromaKeyPixel ∧
    chromaKeyPixel ≠ transparentPixel := by
  have hsrc : canvasAfter exFramesC2 1 (srcCoord 2 2 1) (srcCoord 2 2 1) =
      transparentPixel := by decide
  refine ⟨exInside11, by decide, ?_, by decide⟩
  simp [maskFrame, clippedScaledDraw, exInside11, hsrc, overPixel, chromaFill,
    transparentPixel]

/-- C2 amended: the mask output always has the target dimensions; every
pixel whose centre is outside the scaled polygon equals the substitution
colour exactly; every pixel whose centre is inside it is the source-over
composite of the corresponding scaled full-canvas pixel over the
substitution colour, hence equals the full-canvas pixel where that pixel
is opaque and the substitution colour where it is transparent. -/
theorem C2_amended (pts : List Pt) (origW origH tW tH : ℕ) (full : Canvas) :
    (maskFrame pts origW origH tW tH full).width = tW ∧
    (maskFrame pts origW origH tW tH full).height = tH ∧
    (∀ i j, insideB (scaledPts pts origW origH tW tH) (pixCenter i j) = false →
      (maskFrame pts origW origH tW tH full).pix i j = chromaKeyPixel) ∧
    (∀ i j, insideB (scaledPts pts origW origH tW tH) (pixCenter i j) = true →
      (maskFrame pts origW origH tW tH full).pix i j =
        overPixel (full (srcCoord origW tW i) (srcCoord origH tH j))
          chromaKeyPixel) := by
  refine ⟨rfl, rfl, ?_, ?_⟩ <;> intro i j h <;>
    simp [maskFrame, clippedScaledDraw, chromaFill, h]

/-- Witness for the amended C2 on the concrete square polygon: the mask
keeps the target width, an outside pixel is substitution-coloured, and an
inside pixel is the composite of the source pixel over the substitution
colour. -/
theorem C2_amended_witness :
    (maskFrame exPolySquare 2 2 2 2 (canvasAfter exFramesC2 1)).width = 2 ∧
    (maskFrame exPolySquare 2 2 2 2 (canvasAfter exFramesC2 1)).pix 5 5 =
      chromaKeyPixel ∧
    (maskFrame exPolySquare 2 2 2 2 (canvasAfter exFramesC2 1)).pix 0 0 =
      overPixel (canvasAfter exFramesC2 1 (srcCoord 2 2 0) (srcCoord 2 2 0))
        chromaKeyPixel :=
  ⟨(C2_amended exPolySquare 2 2 2 2 (canvasAfter exFramesC2 1)).1,
   (C2_amended exPolySquare 2 2 2 2 (canvasAfter exFramesC2 1)).2.2.1 5 5 exOutside55,
   (C2_amended exPolySquare 2 2 2 2 (canvasAfter exFramesC2 1)).2.2.2 0 0 exInside00⟩

/-- C6 counterexample: a two-point polygon is not rejected; the pipeline
still emits one output frame per input frame, with its delay. -/
theorem C6_counterexample :
    exPoly2.length < 3 ∧
    (processFrames exFramesC2 exPoly2 2 2 2 2 1).length = 1 ∧
    (processFrames exFramesC2 exPoly2 2 2 2 2 1).map OutFrame.delay = [100] := by
  exact ⟨by decide, by decide, by decide⟩

/-- C6 amended: the core performs no polygon validation. For any polygon
with fewer than 3 points it still emits exactly one output frame per raw
frame, and the degenerate path has empty interior, so every pixel of every
emitted frame is the substitution colour. -/
theorem C6_amended (frames : List RawFrame) (pts : List Pt) (oW oH tW tH : ℕ)
    (h : pts.length < 3) :
    (processFrames frames pts oW oH tW tH 1).length = frames.length ∧
    ∀ of ∈ processFrames frames pts oW oH tW tH 1, ∀ i j,
      of.bitmap.pix i j = chromaKeyPixel := by
  constructor
  · rw [processFrames_one]
    simp
  · intro of hof i j
    rw [processFrames_one, List.mem_map] at hof
    obtain ⟨k, _, hk⟩ := hof
    rw [← hk]
    have hlen : (scaledPts pts oW oH tW tH).length < 3 := by
      simpa [scaledPts] using h
    simp [maskFrame, clippedScaledDraw, chromaFill,
      insideB_degenerate (scaledPts pts oW oH tW tH) hlen (pixCenter i j)]

/-- Witness for the amended C6 at the concrete two-point polygon. -/
theorem C6_amended_witness :
    (processFrames exFramesC2 exPoly2 2 2 2 2 1).length = 1 ∧
    (OutFrame.mk (maskFrame exPoly2 2 2 2 2 (canvasAfter exFramesC2 1))
      (groupDelay exFramesC2 1 0)).bitmap.pix 0 0 = chromaKeyPixel := by
  have hmem : OutFrame.mk (maskFrame exPoly2 2 2 2 2 (canvasAfter exFramesC2 1))
      (groupDelay exFramesC2 1 0) ∈ processFrames exFramesC2 exPoly2 2 2 2 2 1 :=
    List.Mem.head _
  exact ⟨(C6_amended exFramesC2 exPoly2 2 2 2 2 (by decide)).1,
    (C6_amended exFramesC2 exPoly2 2 2 2 2 (by decide)).2 _ hmem 0 0⟩

/-- C7: for every raw frame sequence, polygon and resolutions, at frame
skip 1 the pipeline emits exactly one output frame per raw frame, in
input order, and the i-th output carries the i-th input delay unchanged
together with the masked reconstruction state after frame i. -/
theorem C7_one_output_per_frame (frames : List RawFrame) (pts : List Pt)
    (oW oH tW tH : ℕ) :
    (processFrames frames pts oW oH tW tH 1).length = frames.length ∧
    ∀ i f, frames[i]? = some f →
      (processFrames frames pts oW oH tW tH 1)[i]? =
        some (OutFrame.mk (maskFrame pts oW oH tW tH (canvasAfter frames (i + 1)))
          f.delay) := by
  constructor
  · rw [processFrames_one]
    simp
  · intro i f hf
    exact processFrames_getElem frames pts oW oH tW tH i f hf

/-- Witness for C7 at the concrete one-frame input. -/
theorem C7_one_output_per_frame_witness :
    exFramesC2[0]? = some exFrameC2 ∧
    (processFrames exFramesC2 exPolySquare 2 2 2 2 1)[0]? =
      some (OutFrame.mk (maskFrame exPolySquare 2 2 2 2 (canvasAfter exFramesC2 1))
        exFrameC2.delay) :=
  ⟨rfl, (C7_one_output_per_frame exFramesC2 exPolySquare 2 2 2 2).2 0 exFrameC2 rfl⟩

/-- C10: with an empty polygon the pipeline completes and still emits one
frame per raw frame; the empty path clips everything away, so every pixel
of every emitted frame is the substitution colour 0x00FF00, producing a
fully transparent animation rather than a failure. -/
theorem C10_empty_polygon (frames : List RawFrame) (oW oH tW tH : ℕ) :
    (processFrames frames [] oW oH tW tH 1).length = frames.length ∧
    pixelRGBHex chromaKeyPixel = CHROMA_KEY_COLOR_HEX ∧
    ∀ of ∈ processFrames frames ([] : List Pt) oW oH tW tH 1, ∀ i j,
      of.bitmap.pix i j = chromaKeyPixel := by
  refine ⟨?_, by decide, ?_⟩
  · rw [processFrames_one]
    simp
  · intro of hof i j
    rw [processFrames_one, List.mem_map] at hof
    obtain ⟨k, _, hk⟩ := hof
    rw [← hk]
    simp [maskFrame, clippedScaledDraw, chromaFill, scaledPts, insideB, winding,
      polyEdges]

/-- Witness for C10 at the concrete one-frame input. -/
theorem C10_empty_polygon_witness :
    (processFrames exFramesC2 ([] : List Pt) 2 2 2 2 1).length = 1 ∧
    (OutFrame.mk (maskFrame [] 2 2 2 2 (canvasAfter exFramesC2 1))
      (groupDelay exFramesC2 1 0)).bitmap.pix 0 0 = chromaKeyPixel := by
  have hmem : OutFrame.mk (maskFrame [] 2 2 2 2 (canvasAfter exFramesC2 1))
      (groupDelay exFramesC2 1 0) ∈ processFrames exFramesC2 ([] : List Pt) 2 2 2 2 1 :=
    List.Mem.head _
  exact ⟨(C10_empty_polygon exFramesC2 2 2 2 2).1,
    (C10_empty_polygon exFramesC2 2 2 2 2).2.2 _ hmem 0 0⟩

end GifTools
